import Mathlib

/-!
Verification of the SEO audit generator's core, shallowly embedded from the
Python sources under `app/`.  Pure fragments of the code (severity
aggregation, the structural/redirect/meta-tag analyses over the frozen page
graph, the rollup counters of `run_audit`, and the control flow of the
PageSpeed fetch loop) are translated into executable Lean definitions;
network transport, HTML parsing and report rendering are external
collaborators and enter only as explicit parameters.
-/

/-- Severity enum.  Modelled from the spec (`app/models.py` is not part of the
sources): ordered enum SUCCESS < INFO < WARNING < ERROR, as used by
`BaseAnalyzer._determine_overall_severity`. -/
inductive SeverityLevel where
  | success
  | info
  | warning
  | error
deriving DecidableEq, Repr, BEq

/-- One finding.  Modelled from the spec's data model (§3 AuditIssue); the
field set matches the keyword arguments of `BaseAnalyzer.create_issue`. -/
structure AuditIssue where
  category : String
  severity : SeverityLevel
  message : String
  details : Option String
  affectedUrls : List String
  recommendation : Option String
  count : Nat
deriving DecidableEq, Repr

/-- `BaseAnalyzer.create_issue` with its default arguments
(`details=None`, `affected_urls=None→[]`, `recommendation=None`, `count=1`). -/
def createIssue (category : String) (severity : SeverityLevel) (message : String)
    (details : Option String := none) (affectedUrls : List String := [])
    (recommendation : Option String := none) (count : Nat := 1) : AuditIssue :=
  { category := category
    severity := severity
    message := message
    details := details
    affectedUrls := affectedUrls
    recommendation := recommendation
    count := count }

/-- Output of one analyzer.  Modelled from the spec (§3 AnalyzerResult); only
the fields the claims mention are kept (`data` is carried per-analyzer as
named numeric fields below, display `tables` are rendering-only). -/
structure AnalyzerResult where
  name : String
  severity : SeverityLevel
  summary : String
  issues : List AuditIssue
deriving DecidableEq, Repr

/-- `BaseAnalyzer._determine_overall_severity` (`app/analyzers/base.py`,
lines 118-132). -/
def determineOverallSeverity (issues : List AuditIssue) : SeverityLevel :=
  if issues.isEmpty then .success
  else
    let severities := issues.map (·.severity)
    if severities.contains .error then .error
    else if severities.contains .warning then .warning
    else if severities.contains .info then .info
    else .success

/-- The spec's wording of the aggregation rule (§4.2): ERROR if any issue is
ERROR; else WARNING if any; else INFO if any; else SUCCESS. -/
def aggregateSpec (issues : List AuditIssue) : SeverityLevel :=
  if issues.any (·.severity == .error) then .error
  else if issues.any (·.severity == .warning) then .warning
  else if issues.any (·.severity == .info) then .info
  else .success

lemma sevBeq_comm (a b : SeverityLevel) : (a == b) = (b == a) := by
  cases a <;> cases b <;> rfl

lemma contains_map_eq_any (l : List AuditIssue) (s : SeverityLevel) :
    (l.map (·.severity)).contains s = l.any (·.severity == s) := by
  induction l with
  | nil => rfl
  | cons a t ih =>
      simp only [List.map_cons, List.contains_cons, List.any_cons]
      rw [← ih, sevBeq_comm]

lemma determineOverallSeverity_eq_aggregateSpec (l : List AuditIssue) :
    determineOverallSeverity l = aggregateSpec l := by
  cases l with
  | nil => rfl
  | cons a t =>
      simp only [determineOverallSeverity, aggregateSpec, List.isEmpty_cons,
        contains_map_eq_any]
      rfl

lemma aggregateSpec_error_of_mem {l : List AuditIssue} {e : AuditIssue}
    (hmem : e ∈ l) (he : e.severity = .error) : aggregateSpec l = .error := by
  have : l.any (·.severity == .error) = true := by
    rw [List.any_eq_true]
    exact ⟨e, hmem, by rw [he]; decide⟩
  simp [aggregateSpec, this]

/-- C1: the severity aggregation function returns ERROR if any issue is
ERROR, else WARNING if any issue is WARNING, else INFO if any issue is INFO,
else SUCCESS; in particular the empty list aggregates to SUCCESS, the list
[INFO, WARNING] aggregates to WARNING, and inserting one ERROR issue
anywhere yields ERROR regardless of the other entries. -/
theorem C1_severity_aggregation (l pre post : List AuditIssue) (i w e : AuditIssue) :
    determineOverallSeverity l = aggregateSpec l
    ∧ determineOverallSeverity [] = .success
    ∧ (i.severity = .info → w.severity = .warning →
        determineOverallSeverity [i, w] = .warning)
    ∧ (e.severity = .error →
        determineOverallSeverity (pre ++ e :: post) = .error) := by
  refine ⟨determineOverallSeverity_eq_aggregateSpec l, rfl, ?_, ?_⟩
  · intro hi hw
    rw [determineOverallSeverity_eq_aggregateSpec]
    simp only [aggregateSpec, List.any_cons, List.any_nil, hi, hw]
    decide
  · intro he
    rw [determineOverallSeverity_eq_aggregateSpec]
    exact aggregateSpec_error_of_mem (by simp) he

/-- Concrete instantiation of `C1_severity_aggregation`. -/
theorem C1_severity_aggregation_witness :
    determineOverallSeverity
        [createIssue ("a") .info ("m"), createIssue ("b") .warning ("m")] = .warning
    ∧ determineOverallSeverity
        [createIssue ("a") .info ("m"), createIssue ("x") .error ("m"),
         createIssue ("b") .warning ("m")] = .error := by
  refine ⟨(C1_severity_aggregation [] [] [] (createIssue ("a") .info ("m"))
      (createIssue ("b") .warning ("m")) (createIssue ("x") .error ("m"))).2.2.1 rfl rfl, ?_⟩
  exact (C1_severity_aggregation []
      [createIssue ("a") .info ("m")]
      [createIssue ("b") .warning ("m")]
      (createIssue ("a") .info ("m")) (createIssue ("b") .warning ("m"))
      (createIssue ("x") .error ("m"))).2.2.2 rfl

/-- One crawled page.  Modelled from the spec's data model (§3 Page) restricted
to the fields the structural analyzers read (`app/models.py` is not part of
the sources): `statusCode` is `none` when the fetch failed, `title` and
`metaDescription` are `""` when absent (Python falsiness), `redirectChain`
is the ordered URL sequence, `internalLinks` the set of same-site targets. -/
structure PageData where
  statusCode : Option Nat
  title : String
  metaDescription : String
  depth : Nat
  redirectChain : List String
  internalLinks : List String
deriving DecidableEq, Repr

/-- Shorthand page constructor used by concrete witnesses. -/
def mkPage (status : Option Nat) (title desc : String) (depth : Nat)
    (chain links : List String) : PageData :=
  { statusCode := status
    title := title
    metaDescription := desc
    depth := depth
    redirectChain := chain
    internalLinks := links }

/-- The page map `pages : Dict[str, PageData]`, kept as an association list in
dict insertion/iteration order. -/
abbrev PageMap := List (String × PageData)

/-- The incoming-link index of `StructureAnalyzer.analyze`
(`app/analyzers/structure.py`, lines 46-59): the union of `internal_links`
over all pages with status 200 (non-200 pages are skipped by `continue`). -/
def incomingLinks (pages : PageMap) : List String :=
  pages.foldl
    (fun acc p =>
      if p.2.statusCode = some 200 then acc ++ p.2.internalLinks else acc) []

/-- The orphan-page pass of `StructureAnalyzer.analyze`
(`app/analyzers/structure.py`, lines 61-72): 200-status pages other than
`base_url` and `base_url + "/"` that are not in the incoming-link index. -/
def orphanPages (pages : PageMap) (baseUrl : String) : List String :=
  pages.filterMap
    (fun p =>
      if p.2.statusCode = some 200 ∧ p.1 ≠ baseUrl ∧ p.1 ≠ baseUrl ++ "/"
          ∧ p.1 ∉ incomingLinks pages then some p.1 else none)

/-- The orphan set as worded by the claim (refinement reference, not taken
from the source): a 200-status page URL, other than the seed with or without
a trailing slash, that appears in no OTHER page's `internalLinks`. -/
def orphanPagesClaim (pages : PageMap) (baseUrl u : String) : Bool :=
  pages.any (fun p => p.1 == u && p.2.statusCode == some 200)
  && !(u == baseUrl) && !(u == baseUrl ++ "/")
  && pages.all (fun q => q.1 == u || !(q.2.internalLinks.contains u))

lemma mem_incomingLinks_aux (pages : PageMap) (acc : List String) (u : String) :
    u ∈ pages.foldl
        (fun acc p =>
          if p.2.statusCode = some 200 then acc ++ p.2.internalLinks else acc) acc
      ↔ u ∈ acc ∨ ∃ q ∈ pages, q.2.statusCode = some 200 ∧ u ∈ q.2.internalLinks := by
  induction pages generalizing acc with
  | nil => simp
  | cons p t ih =>
      rw [List.foldl_cons, ih]
      by_cases h : p.2.statusCode = some 200
      · simp only [if_pos h, List.mem_append, List.mem_cons]
        constructor
        · rintro (⟨hu | hu⟩ | ⟨q, hq, h200, hl⟩)
          · exact Or.inl hu
          · exact Or.inr ⟨p, Or.inl rfl, h, hu⟩
          · exact Or.inr ⟨q, Or.inr hq, h200, hl⟩
        · rintro (hu | ⟨q, hq | hq, h200, hl⟩)
          · exact Or.inl (Or.inl hu)
          · exact Or.inl (Or.inr (hq ▸ hl))
          · exact Or.inr ⟨q, hq, h200, hl⟩
      · simp only [if_neg h, List.mem_cons]
        constructor
        · rintro (hu | ⟨q, hq, h200, hl⟩)
          · exact Or.inl hu
          · exact Or.inr ⟨q, Or.inr hq, h200, hl⟩
        · rintro (hu | ⟨q, hq | hq, h200, hl⟩)
          · exact Or.inl hu
          · exact absurd (hq ▸ h200) h
          · exact Or.inr ⟨q, hq, h200, hl⟩

lemma mem_incomingLinks (pages : PageMap) (u : String) :
    u ∈ incomingLinks pages
      ↔ ∃ q ∈ pages, q.2.statusCode = some 200 ∧ u ∈ q.2.internalLinks := by
  rw [incomingLinks, mem_incomingLinks_aux]
  simp

lemma mem_orphanPages (pages : PageMap) (baseUrl u : String) :
    u ∈ orphanPages pages baseUrl
      ↔ (∃ p : PageData, (u, p) ∈ pages ∧ p.statusCode = some 200)
        ∧ u ≠ baseUrl ∧ u ≠ baseUrl ++ "/"
        ∧ ∀ q ∈ pages, q.2.statusCode = some 200 → u ∉ q.2.internalLinks := by
  rw [orphanPages, List.mem_filterMap]
  constructor
  · rintro ⟨p, hp, hcond⟩
    by_cases h : p.2.statusCode = some 200 ∧ p.1 ≠ baseUrl ∧ p.1 ≠ baseUrl ++ "/"
        ∧ p.1 ∉ incomingLinks pages
    · rw [if_pos h] at hcond
      obtain ⟨h200, hb, hbs, hin⟩ := h
      cases hcond
      refine ⟨⟨p.2, hp, h200⟩, hb, hbs, ?_⟩
      intro q hq hq200 hl
      exact hin ((mem_incomingLinks pages p.1).2 ⟨q, hq, hq200, hl⟩)
    · rw [if_neg h] at hcond
      cases hcond
  · rintro ⟨⟨p, hp, h200⟩, hb, hbs, hnolink⟩
    refine ⟨(u, p), hp, ?_⟩
    rw [if_pos]
    exact ⟨h200, hb, hbs, fun hin => by
      obtain ⟨q, hq, hq200, hl⟩ := (mem_incomingLinks pages u).1 hin
      exact hnolink q hq hq200 hl⟩

/-- C5 (amended): `orphanPages` reports exactly the 200-status page URLs,
other than the seed with or without a trailing slash, that appear in no
200-status page's `internalLinks` — a page's own self-links count as
incoming and links on non-200 pages are ignored; the reported set is
invariant under permutation of the page map, and adding a 200-status page
that links to O removes O from the set. -/
theorem C5_orphan_pages (pages pages₁ pages₂ : PageMap)
    (baseUrl u o x : String) (px : PageData) :
    (u ∈ orphanPages pages baseUrl
      ↔ (∃ p : PageData, (u, p) ∈ pages ∧ p.statusCode = some 200)
        ∧ u ≠ baseUrl ∧ u ≠ baseUrl ++ "/"
        ∧ ∀ q ∈ pages, q.2.statusCode = some 200 → u ∉ q.2.internalLinks)
    ∧ (pages₁.Perm pages₂ →
        (u ∈ orphanPages pages₁ baseUrl ↔ u ∈ orphanPages pages₂ baseUrl))
    ∧ (px.statusCode = some 200 → o ∈ px.internalLinks →
        o ∉ orphanPages (pages ++ [(x, px)]) baseUrl) := by
  refine ⟨mem_orphanPages pages baseUrl u, ?_, ?_⟩
  · intro hperm
    rw [mem_orphanPages, mem_orphanPages]
    constructor
    · rintro ⟨⟨p, hp, h200⟩, hb, hbs, hno⟩
      exact ⟨⟨p, hperm.mem_iff.1 hp, h200⟩, hb, hbs,
        fun q hq => hno q (hperm.mem_iff.2 hq)⟩
    · rintro ⟨⟨p, hp, h200⟩, hb, hbs, hno⟩
      exact ⟨⟨p, hperm.mem_iff.2 hp, h200⟩, hb, hbs,
        fun q hq => hno q (hperm.mem_iff.1 hq)⟩
  · intro h200 hlink hmem
    obtain ⟨_, _, _, hno⟩ := (mem_orphanPages _ baseUrl o).1 hmem
    exact hno (x, px) (by simp) h200 hlink

/-- Concrete instantiation of `C5_orphan_pages`. -/
theorem C5_orphan_pages_witness :
    ("https://s.test/o" ∈
        orphanPages [("https://s.test", mkPage (some 200) ("h") ("") 0
            ["https://s.test"] []),
          ("https://s.test/o", mkPage (some 200) ("o") ("") 1
            ["https://s.test/o"] [])] ("https://s.test")
      ↔ True)
    ∧ ("https://s.test/o" ∉
        orphanPages ([("https://s.test", mkPage (some 200) ("h") ("") 0
            ["https://s.test"] [])] ++
          [("https://s.test/x", mkPage (some 200) ("x") ("") 1
            ["https://s.test/x"] ["https://s.test/o"])]) ("https://s.test")) := by
  constructor
  · rw [(C5_orphan_pages _ [] [] ("https://s.test") ("https://s.test/o")
      ("") ("") (mkPage none ("") ("") 0 [] [])).1]
    simp only [iff_true]
    refine ⟨⟨mkPage (some 200) ("o") ("") 1 ["https://s.test/o"] [],
      by simp, rfl⟩, by decide, by decide, ?_⟩
    decide
  · exact (C5_orphan_pages [("https://s.test", mkPage (some 200) ("h") ("") 0
        ["https://s.test"] [])] [] [] ("https://s.test") ("")
        ("https://s.test/o") ("https://s.test/x")
        (mkPage (some 200) ("x") ("") 1 ["https://s.test/x"]
          ["https://s.test/o"])).2.2 rfl (by decide)

/-- C5 fails as stated: with the single page B = "https://s.test/b" (status
200) whose only incoming link is its own self-link, the claim's wording
("no OTHER page's internalLinks") makes B an orphan, but the code's
incoming-link index contains B, so the computation does not report it. -/
theorem C5_counterexample :
    orphanPagesClaim
        [("https://s.test/b", mkPage (some 200) ("b") ("") 1
          ["https://s.test/b"] ["https://s.test/b"])]
        ("https://s.test") ("https://s.test/b") = true
    ∧ orphanPages
        [("https://s.test/b", mkPage (some 200) ("b") ("") 1
          ["https://s.test/b"] ["https://s.test/b"])]
        ("https://s.test") = [] := by
  constructor
  · decide
  · decide

/-- Stand-in for `BaseAnalyzer.t`: the i18n table lives outside the core
(`app/i18n` is an excluded localization collaborator), so a translated
message is represented by its translation key. -/
def tr (key : String) : String := key

/-- Numeric `data` fields of the structure analyzer's result
(`app/analyzers/structure.py`, lines 196-203; the `depth_distribution`
sub-dict is display-derived and omitted). -/
structure StructureData where
  totalPages : Nat
  maxDepth : Nat
  deepPages : Nat
  orphanPagesCount : Nat
  pagesWithFewLinks : Nat
deriving DecidableEq, Repr

/-- Deep pages pass of `StructureAnalyzer.analyze` (lines 48-55): 200-status
pages whose depth exceeds `MAX_CLICK_DEPTH` (`settings` is configuration;
the bound is a parameter here). -/
def deepPagesList (maxClickDepth : Nat) (pages : PageMap) : List (String × Nat) :=
  pages.filterMap
    (fun p =>
      if p.2.statusCode = some 200 ∧ maxClickDepth < p.2.depth
      then some (p.1, p.2.depth) else none)

/-- Internal-linking pass (lines 74-87): 200-status pages with fewer than 3
internal links (the `== 0` and `< 3` branches both append). -/
def pagesWithFewLinksList (pages : PageMap) : List (String × Nat) :=
  pages.filterMap
    (fun p =>
      if p.2.statusCode = some 200 ∧ p.2.internalLinks.length < 3
      then some (p.1, p.2.internalLinks.length) else none)

/-- `max(depth_distribution.keys()) if depth_distribution else 0`
(line 91): the distribution's keys are exactly the depths of 200-status
pages, so the maximum is folded over those depths. -/
def maxDepthOf (pages : PageMap) : Nat :=
  (pages.filterMap
    (fun p => if p.2.statusCode = some 200 then some p.2.depth else none)).foldl
    Nat.max 0

/-- `StructureAnalyzer.analyze` (`app/analyzers/structure.py`): issue list,
overall severity and numeric data (localized strings are carried as
translation keys; display tables are rendering-only and omitted). -/
def structureAnalyze (maxClickDepth : Nat) (baseUrl : String) (pages : PageMap) :
    AnalyzerResult × StructureData :=
  let deepPages := deepPagesList maxClickDepth pages
  let orphans := orphanPages pages baseUrl
  let fewLinks := pagesWithFewLinksList pages
  let totalPages := (pages.filter (fun p => p.2.statusCode = some 200)).length
  let maxDepth := maxDepthOf pages
  let deepSorted := deepPages.mergeSort (fun a b => Nat.ble b.2 a.2)
  let issues :=
    (if deepPages.isEmpty then [] else
      [createIssue ("deep_pages") .warning
        (tr ("analyzer_content.structure.issues.deep_pages"))
        (some (tr ("analyzer_content.structure.issues.deep_pages_details")))
        ((deepSorted.map (·.1)).take 20)
        (some (tr ("analyzer_content.structure.issues.deep_pages_recommendation")))
        deepPages.length])
    ++ (if orphans.isEmpty then [] else
      [createIssue ("orphan_pages") .warning
        (tr ("analyzer_content.structure.issues.orphan_pages"))
        (some (tr ("analyzer_content.structure.issues.orphan_pages_details")))
        (orphans.take 20)
        (some (tr ("analyzer_content.structure.issues.orphan_pages_recommendation")))
        orphans.length])
    ++ (if fewLinks.isEmpty then [] else
      [createIssue ("few_internal_links") .info
        (tr ("analyzer_content.structure.issues.few_internal_links"))
        (some (tr ("analyzer_content.structure.issues.few_internal_links_details")))
        ((fewLinks.map (·.1)).take 20)
        (some (tr ("analyzer_content.structure.issues.few_internal_links_recommendation")))
        fewLinks.length])
    ++ (if 5 < maxDepth then
      [createIssue ("very_deep_structure") .error
        (tr ("analyzer_content.structure.issues.very_deep_structure"))
        (some (tr ("analyzer_content.structure.issues.very_deep_structure_details")))
        [] (some (tr ("analyzer_content.structure.issues.very_deep_structure_recommendation")))]
      else [])
  let summary :=
    if issues.isEmpty then tr ("analyzer_content.structure.summary.ok")
    else tr ("analyzer_content.structure.summary.issues")
  ({ name := "structure"
     severity := determineOverallSeverity issues
     summary := summary
     issues := issues },
   { totalPages := totalPages
     maxDepth := maxDepth
     deepPages := deepPages.length
     orphanPagesCount := orphans.length
     pagesWithFewLinks := fewLinks.length })

/-- One entry of `all_chains` in `RedirectsAnalyzer.analyze`
(`app/analyzers/redirects.py`, lines 47-62). -/
structure ChainInfo where
  startUrl : String
  endUrl : String
  hops : Nat
  chain : List String
deriving DecidableEq, Repr

/-- `all_chains` (lines 47-62): one entry per page whose `redirect_chain`
has at least two URLs; `hops = len(chain) - 1`. -/
def allChains (pages : PageMap) : List ChainInfo :=
  pages.filterMap
    (fun p =>
      if 2 ≤ p.2.redirectChain.length then
        some { startUrl := p.2.redirectChain.headD ("")
               endUrl := p.2.redirectChain.getLastD ("")
               hops := p.2.redirectChain.length - 1
               chain := p.2.redirectChain }
      else none)

/-- `chains_2_hops` (the `elif chain_length == 2` branch, line 66-67). -/
def chains2Hops (pages : PageMap) : List ChainInfo :=
  (allChains pages).filter (fun c => c.hops = 2)

/-- `chains_3_plus` (the `if chain_length >= 3` branch, line 64-65). -/
def chains3Plus (pages : PageMap) : List ChainInfo :=
  (allChains pages).filter (fun c => 3 ≤ c.hops)

/-- `redirecting_urls` (lines 45-53): page URL → final URL for every page
whose chain has at least two entries. -/
def redirectingUrls (pages : PageMap) : List (String × String) :=
  pages.filterMap
    (fun p =>
      if 2 ≤ p.2.redirectChain.length
      then some (p.1, p.2.redirectChain.getLastD ("")) else none)

/-- `internal_links_to_redirects` (lines 69-82): for every 200-status page,
each internal link whose target is a redirecting URL, with the redirect's
final URL. -/
def internalLinksToRedirects (pages : PageMap) : List (String × String × String) :=
  pages.flatMap
    (fun p =>
      if p.2.statusCode = some 200 then
        p.2.internalLinks.filterMap
          (fun link =>
            match (redirectingUrls pages).lookup link with
            | some fin => some (p.1, link, fin)
            | none => none)
      else [])

/-- First-occurrence deduplication; stands in for `list(set(...))` on the
display-only `affected_urls` of the links-to-redirects issue (CPython set
iteration order is unspecified). -/
def firstOccs (l : List String) : List String :=
  l.foldl (fun acc v => if v ∈ acc then acc else acc ++ [v]) []

/-- Numeric `data` fields of the redirects analyzer's result
(`app/analyzers/redirects.py`, lines 172-177). -/
structure RedirectsData where
  totalRedirects : Nat
  chains2Hops : Nat
  chains3Plus : Nat
  internalLinksToRedirects : Nat
deriving DecidableEq, Repr

/-- `RedirectsAnalyzer.analyze` (`app/analyzers/redirects.py`): issue list,
overall severity and numeric data (localized strings carried as translation
keys; the display table is rendering-only and omitted). -/
def redirectsAnalyze (pages : PageMap) : AnalyzerResult × RedirectsData :=
  let c2 := chains2Hops pages
  let c3 := chains3Plus pages
  let links := internalLinksToRedirects pages
  let issues :=
    (if c3.isEmpty then [] else
      [createIssue ("long_redirect_chains") .error
        (tr ("analyzer_content.redirects.issues.long_redirect_chains"))
        (some (tr ("analyzer_content.redirects.details.long_redirect_chains")))
        ((c3.map (·.startUrl)).take 20)
        (some (tr ("analyzer_content.redirects.recommendations.long_redirect_chains")))
        c3.length])
    ++ (if c2.isEmpty then [] else
      [createIssue ("redirect_chains") .warning
        (tr ("analyzer_content.redirects.issues.redirect_chains"))
        (some (tr ("analyzer_content.redirects.details.redirect_chains")))
        ((c2.map (·.startUrl)).take 20)
        (some (tr ("analyzer_content.redirects.recommendations.redirect_chains")))
        c2.length])
    ++ (if links.isEmpty then [] else
      [createIssue ("internal_links_to_redirects") .warning
        (tr ("analyzer_content.redirects.issues.internal_links_to_redirects"))
        (some (tr ("analyzer_content.redirects.details.internal_links_to_redirects")))
        ((firstOccs (links.map (·.1))).take 20)
        (some (tr ("analyzer_content.redirects.recommendations.internal_links_to_redirects")))
        links.length])
    ++ (if c3.isEmpty && c2.isEmpty && links.isEmpty then
      [createIssue ("no_redirect_issues") .success
        (tr ("analyzer_content.redirects.issues.no_redirect_issues"))
        (some (tr ("analyzer_content.redirects.details.no_redirect_issues")))
        [] (some (tr ("analyzer_content.redirects.recommendations.no_redirect_issues")))]
      else [])
  let summary :=
    if c2.length + c3.length > 0 then tr ("analyzer_content.redirects.summary.found")
    else tr ("analyzer_content.redirects.summary.ok")
  ({ name := "redirects"
     severity := determineOverallSeverity issues
     summary := summary
     issues := issues },
   { totalRedirects := (allChains pages).length
     chains2Hops := c2.length
     chains3Plus := c3.length
     internalLinksToRedirects := links.length })

lemma chainsFilter_length (pages : PageMap) (f : Nat → Bool) :
    ((allChains pages).filter (fun c => f c.hops)).length
      = pages.countP
          (fun q => decide (2 ≤ q.2.redirectChain.length)
            && f (q.2.redirectChain.length - 1)) := by
  induction pages with
  | nil => rfl
  | cons p t ih =>
      simp only [allChains, List.filterMap_cons, List.countP_cons] at *
      by_cases h : 2 ≤ p.2.redirectChain.length
      · rw [if_pos h, List.filter_cons]
        by_cases hf : f (p.2.redirectChain.length - 1)
        · simp only [hf, decide_eq_true h, Bool.and_self, if_pos]
          rw [List.length_cons, ih]
        · simp only [hf, Bool.and_false, if_neg, Bool.false_eq_true,
            not_false_iff]
          rw [ih]
          simp [hf]
      · rw [if_neg h, ih]
        simp [h]

lemma chains2Hops_length (pages : PageMap) :
    (chains2Hops pages).length
      = pages.countP (fun q => decide (q.2.redirectChain.length = 3)) := by
  have h := chainsFilter_length pages (fun n => decide (n = 2))
  rw [chains2Hops]
  refine h.trans ?_
  apply List.countP_congr
  intro q _
  simp only [Bool.and_eq_true, decide_eq_true_eq]
  omega

lemma chains3Plus_length (pages : PageMap) :
    (chains3Plus pages).length
      = pages.countP (fun q => decide (4 ≤ q.2.redirectChain.length)) := by
  have h := chainsFilter_length pages (fun n => decide (3 ≤ n))
  rw [chains3Plus]
  refine h.trans ?_
  apply List.countP_congr
  intro q _
  simp only [Bool.and_eq_true, decide_eq_true_eq]
  omega

lemma redirects_filter_rc (pages : PageMap) :
    (redirectsAnalyze pages).1.issues.filter
        (fun i => i.category == "redirect_chains")
      = if chains2Hops pages = [] then []
        else [createIssue ("redirect_chains") .warning
          (tr ("analyzer_content.redirects.issues.redirect_chains"))
          (some (tr ("analyzer_content.redirects.details.redirect_chains")))
          (((chains2Hops pages).map (·.startUrl)).take 20)
          (some (tr ("analyzer_content.redirects.recommendations.redirect_chains")))
          (chains2Hops pages).length] := by
  simp only [redirectsAnalyze]
  split_ifs <;> simp_all [createIssue, List.filter_append, List.isEmpty_iff]

lemma redirects_filter_lrc (pages : PageMap) :
    (redirectsAnalyze pages).1.issues.filter
        (fun i => i.category == "long_redirect_chains")
      = if chains3Plus pages = [] then []
        else [createIssue ("long_redirect_chains") .error
          (tr ("analyzer_content.redirects.issues.long_redirect_chains"))
          (some (tr ("analyzer_content.redirects.details.long_redirect_chains")))
          (((chains3Plus pages).map (·.startUrl)).take 20)
          (some (tr ("analyzer_content.redirects.recommendations.long_redirect_chains")))
          (chains3Plus pages).length] := by
  simp only [redirectsAnalyze]
  split_ifs <;> simp_all [createIssue, List.filter_append, List.isEmpty_iff]

/-- C6: hop-count-1 chains are counted by neither chain issue (and with only
hop-1 chains and no internal links to redirects the analyzer reports no
WARNING or ERROR issue at all); pages with hop count exactly 2 (chain
length 3) yield exactly one WARNING issue of category "redirect_chains"
counting them, and pages with hop count at least 3 (chain length ≥ 4) yield
exactly one ERROR issue of category "long_redirect_chains" counting them. -/
theorem C6_redirect_chain_classification (pages : PageMap) :
    ((redirectsAnalyze pages).1.issues.filter
        (fun i => i.category == "redirect_chains")).length
      = (if pages.countP (fun q => decide (q.2.redirectChain.length = 3)) = 0
          then 0 else 1)
    ∧ (∀ i ∈ (redirectsAnalyze pages).1.issues, i.category = "redirect_chains" →
        i.severity = .warning
        ∧ i.count = pages.countP (fun q => decide (q.2.redirectChain.length = 3)))
    ∧ ((redirectsAnalyze pages).1.issues.filter
        (fun i => i.category == "long_redirect_chains")).length
      = (if pages.countP (fun q => decide (4 ≤ q.2.redirectChain.length)) = 0
          then 0 else 1)
    ∧ (∀ i ∈ (redirectsAnalyze pages).1.issues, i.category = "long_redirect_chains" →
        i.severity = .error
        ∧ i.count = pages.countP (fun q => decide (4 ≤ q.2.redirectChain.length)))
    ∧ ((∀ q ∈ pages, q.2.redirectChain.length ≤ 2) →
        internalLinksToRedirects pages = [] →
        ∀ i ∈ (redirectsAnalyze pages).1.issues,
          i.severity ≠ .warning ∧ i.severity ≠ .error) := by
  have h2len := chains2Hops_length pages
  have h3len := chains3Plus_length pages
  refine ⟨?_, ?_, ?_, ?_, ?_⟩
  · rw [redirects_filter_rc]
    by_cases h2 : chains2Hops pages = []
    · have hn : pages.countP (fun q => decide (q.2.redirectChain.length = 3)) = 0 := by
        rw [← h2len, h2]
        rfl
      rw [if_pos h2, if_pos hn]
      rfl
    · have hn : pages.countP (fun q => decide (q.2.redirectChain.length = 3)) ≠ 0 := by
        rw [← h2len]
        simpa [List.length_eq_zero] using h2
      rw [if_neg h2, if_neg hn]
      rfl
  · intro i hi hcat
    have hmem : i ∈ (redirectsAnalyze pages).1.issues.filter
        (fun i => i.category == "redirect_chains") :=
      List.mem_filter.mpr ⟨hi, by simp [hcat]⟩
    rw [redirects_filter_rc] at hmem
    by_cases h2 : chains2Hops pages = []
    · rw [if_pos h2] at hmem
      cases hmem
    · rw [if_neg h2] at hmem
      rw [List.mem_singleton] at hmem
      subst hmem
      exact ⟨rfl, h2len⟩
  · rw [redirects_filter_lrc]
    by_cases h3 : chains3Plus pages = []
    · have hn : pages.countP (fun q => decide (4 ≤ q.2.redirectChain.length)) = 0 := by
        rw [← h3len, h3]
        rfl
      rw [if_pos h3, if_pos hn]
      rfl
    · have hn : pages.countP (fun q => decide (4 ≤ q.2.redirectChain.length)) ≠ 0 := by
        rw [← h3len]
        simpa [List.length_eq_zero] using h3
      rw [if_neg h3, if_neg hn]
      rfl
  · intro i hi hcat
    have hmem : i ∈ (redirectsAnalyze pages).1.issues.filter
        (fun i => i.category == "long_redirect_chains") :=
      List.mem_filter.mpr ⟨hi, by simp [hcat]⟩
    rw [redirects_filter_lrc] at hmem
    by_cases h3 : chains3Plus pages = []
    · rw [if_pos h3] at hmem
      cases hmem
    · rw [if_neg h3] at hmem
      rw [List.mem_singleton] at hmem
      subst hmem
      exact ⟨rfl, h3len⟩
  · intro hshort hlinks i hi
    have h2 : chains2Hops pages = [] := by
      rw [← List.length_eq_zero, h2len, List.countP_eq_zero]
      intro q hq
      have := hshort q hq
      simp only [decide_eq_true_eq]
      omega
    have h3 : chains3Plus pages = [] := by
      rw [← List.length_eq_zero, h3len, List.countP_eq_zero]
      intro q hq
      have := hshort q hq
      simp only [decide_eq_true_eq]
      omega
    simp only [redirectsAnalyze, h2, h3, hlinks] at hi
    simp only [List.isEmpty_nil, if_pos, List.nil_append, Bool.and_self,
      if_true, List.mem_singleton] at hi
    subst hi
    exact ⟨by simp [createIssue], by simp [createIssue]⟩

/-- Concrete page map with one 1-hop, one 2-hop and one 3-hop redirect
chain, used to instantiate `C6_redirect_chain_classification`. -/
def pagesC6 : PageMap :=
  [("u1", mkPage (some 200) ("") ("") 0 ["s", "t"] []),
   ("u2", mkPage (some 200) ("") ("") 0 ["a", "b", "c"] []),
   ("u3", mkPage (some 200) ("") ("") 0 ["w", "x", "y", "z"] [])]

/-- Concrete page map whose only redirect chain has one hop. -/
def pagesC6b : PageMap :=
  [("u1", mkPage (some 200) ("") ("") 0 ["s", "t"] [])]

/-- Concrete instantiation of `C6_redirect_chain_classification`. -/
theorem C6_redirect_chain_classification_witness :
    (((redirectsAnalyze pagesC6).1.issues.filter
        (fun i => i.category == "redirect_chains")).headD
          (createIssue ("") .success (""))).severity = .warning
    ∧ (((redirectsAnalyze pagesC6).1.issues.filter
        (fun i => i.category == "redirect_chains")).headD
          (createIssue ("") .success (""))).count = 1
    ∧ (((redirectsAnalyze pagesC6).1.issues.filter
        (fun i => i.category == "long_redirect_chains")).headD
          (createIssue ("") .success (""))).severity = .error
    ∧ (((redirectsAnalyze pagesC6).1.issues.filter
        (fun i => i.category == "long_redirect_chains")).headD
          (createIssue ("") .success (""))).count = 1
    ∧ ((redirectsAnalyze pagesC6b).1.issues.headD
          (createIssue ("") .success (""))).severity ≠ .warning := by
  have h := C6_redirect_chain_classification pagesC6
  have hb := C6_redirect_chain_classification pagesC6b
  have hmem2 : ((redirectsAnalyze pagesC6).1.issues.filter
      (fun i => i.category == "redirect_chains")).headD
        (createIssue ("") .success ("")) ∈
      (redirectsAnalyze pagesC6).1.issues.filter
        (fun i => i.category == "redirect_chains") := by decide
  have hmem3 : ((redirectsAnalyze pagesC6).1.issues.filter
      (fun i => i.category == "long_redirect_chains")).headD
        (createIssue ("") .success ("")) ∈
      (redirectsAnalyze pagesC6).1.issues.filter
        (fun i => i.category == "long_redirect_chains") := by decide
  have hm2 := List.mem_filter.mp hmem2
  have hm3 := List.mem_filter.mp hmem3
  have hcat2 : (((redirectsAnalyze pagesC6).1.issues.filter
      (fun i => i.category == "redirect_chains")).headD
        (createIssue ("") .success (""))).category = "redirect_chains" := by
    have := hm2.2
    simpa using this
  have hcat3 : (((redirectsAnalyze pagesC6).1.issues.filter
      (fun i => i.category == "long_redirect_chains")).headD
        (createIssue ("") .success (""))).category = "long_redirect_chains" := by
    have := hm3.2
    simpa using this
  have h2 := h.2.1 _ hm2.1 hcat2
  have h3 := h.2.2.2.1 _ hm3.1 hcat3
  have hmemb : ((redirectsAnalyze pagesC6b).1.issues.headD
      (createIssue ("") .success (""))) ∈ (redirectsAnalyze pagesC6b).1.issues := by
    decide
  have h5 := hb.2.2.2.2 (by decide) (by decide) _ hmemb
  refine ⟨h2.1, ?_, h3.1, ?_, h5.1⟩
  · rw [h2.2]
    decide
  · rw [h3.2]
    decide

/-- C9: on an empty page map both structural analyzers are total and degrade
to empty results: the structure analyzer yields no issues, SUCCESS severity
and all-zero data (total pages 0, max depth 0), and the redirects analyzer
yields all-zero data (no chains, no internal links to redirects) with no
WARNING or ERROR issue, for every configured click-depth bound and base
URL. -/
theorem C9_empty_graph (maxClickDepth : Nat) (baseUrl : String) :
    (structureAnalyze maxClickDepth baseUrl []).1.issues = []
    ∧ (structureAnalyze maxClickDepth baseUrl []).1.severity = .success
    ∧ (structureAnalyze maxClickDepth baseUrl []).2
        = { totalPages := 0, maxDepth := 0, deepPages := 0,
            orphanPagesCount := 0, pagesWithFewLinks := 0 }
    ∧ (redirectsAnalyze []).2
        = { totalRedirects := 0, chains2Hops := 0, chains3Plus := 0,
            internalLinksToRedirects := 0 }
    ∧ ∀ i ∈ (redirectsAnalyze []).1.issues,
        i.severity ≠ .warning ∧ i.severity ≠ .error := by
  refine ⟨rfl, rfl, rfl, rfl, ?_⟩
  decide

/-- Concrete instantiation of `C9_empty_graph`. -/
theorem C9_empty_graph_witness :
    ((redirectsAnalyze []).1.issues.headD
        (createIssue ("") .success (""))).severity ≠ .warning := by
  have h := C9_empty_graph 3 ("https://x.test")
  exact (h.2.2.2.2 _ (by decide)).1

/-- `missing_titles` of `MetaTagsAnalyzer.analyze`
(`app/analyzers/meta_tags.py`, lines 55-63): 200-status pages with a falsy
(empty) title. -/
def mtMissingTitles (pages : PageMap) : List String :=
  pages.filterMap
    (fun p =>
      if p.2.statusCode = some 200 ∧ p.2.title = "" then some p.1 else none)

/-- The `titles` dict (line 63): URL → title for 200-status pages with a
non-empty title, in dict order. -/
def mtTitles (pages : PageMap) : List (String × String) :=
  pages.filterMap
    (fun p =>
      if p.2.statusCode = some 200 ∧ p.2.title ≠ "" then some (p.1, p.2.title)
      else none)

/-- `short_titles` (lines 64-66): titled 200-status pages with
`len(title) < TITLE_MIN_LENGTH` (the threshold is configuration and is a
parameter here). -/
def mtShortTitles (titleMin : Nat) (pages : PageMap) : List (String × String × Nat) :=
  pages.filterMap
    (fun p =>
      if p.2.statusCode = some 200 ∧ p.2.title ≠ "" ∧ p.2.title.length < titleMin
      then some (p.1, p.2.title, p.2.title.length) else none)

/-- `long_titles` (lines 67-68, the `elif` branch). -/
def mtLongTitles (titleMin titleMax : Nat) (pages : PageMap) :
    List (String × String × Nat) :=
  pages.filterMap
    (fun p =>
      if p.2.statusCode = some 200 ∧ p.2.title ≠ ""
          ∧ ¬p.2.title.length < titleMin ∧ titleMax < p.2.title.length
      then some (p.1, p.2.title, p.2.title.length) else none)

/-- `missing_descriptions` (lines 71-72). -/
def mtMissingDescs (pages : PageMap) : List String :=
  pages.filterMap
    (fun p =>
      if p.2.statusCode = some 200 ∧ p.2.metaDescription = "" then some p.1
      else none)

/-- The `descriptions` dict (line 74). -/
def mtDescs (pages : PageMap) : List (String × String) :=
  pages.filterMap
    (fun p =>
      if p.2.statusCode = some 200 ∧ p.2.metaDescription ≠ ""
      then some (p.1, p.2.metaDescription) else none)

/-- `short_descriptions` (lines 75-77). -/
def mtShortDescs (descMin : Nat) (pages : PageMap) : List (String × String × Nat) :=
  pages.filterMap
    (fun p =>
      if p.2.statusCode = some 200 ∧ p.2.metaDescription ≠ ""
          ∧ p.2.metaDescription.length < descMin
      then some (p.1, p.2.metaDescription, p.2.metaDescription.length) else none)

/-- `long_descriptions` (lines 78-79, the `elif` branch). -/
def mtLongDescs (descMin descMax : Nat) (pages : PageMap) :
    List (String × String × Nat) :=
  pages.filterMap
    (fun p =>
      if p.2.statusCode = some 200 ∧ p.2.metaDescription ≠ ""
          ∧ ¬p.2.metaDescription.length < descMin
          ∧ descMax < p.2.metaDescription.length
      then some (p.1, p.2.metaDescription, p.2.metaDescription.length) else none)

/-- Occurrence count of a value, as tallied by `collections.Counter`. -/
def countOf (vals : List String) (v : String) : Nat :=
  (vals.filter (fun x => x = v)).length

/-- The duplicate groups `{value: count for value, count in Counter(...).items()
if count > 1}` (lines 82-86): distinct values in first-occurrence order
(Counter preserves first-encounter order) whose occurrence count exceeds 1. -/
def duplicateGroups (vals : List String) : List (String × Nat) :=
  (firstOccs vals).filterMap
    (fun v => if 2 ≤ countOf vals v then some (v, countOf vals v) else none)

/-- `dup_urls` (lines 162-165 / 179-182): for each duplicate group, the URLs
carrying that value, capped at 5 per group. -/
def dupUrls (entries : List (String × String)) (groups : List (String × Nat)) :
    List String :=
  groups.flatMap
    (fun g => ((entries.filter (fun ut => ut.2 = g.1)).map (·.1)).take 5)

/-- Numeric `data` fields of the meta-tags analyzer's result
(`app/analyzers/meta_tags.py`, lines 245-253). -/
structure MetaTagsData where
  totalPages : Nat
  missingTitles : Nat
  missingDescriptions : Nat
  duplicateTitles : Nat
  duplicateDescriptions : Nat
  okTitles : Nat
  okDescriptions : Nat
deriving DecidableEq, Repr

/-- `MetaTagsAnalyzer.analyze` (`app/analyzers/meta_tags.py`): issue list,
overall severity and numeric data.  The hard-coded Ukrainian display strings
are abbreviated to stable labels (display-only); the length thresholds come
from configuration and are parameters. -/
def metaTagsAnalyze (titleMin titleMax descMin descMax : Nat) (pages : PageMap) :
    AnalyzerResult × MetaTagsData :=
  let missingT := mtMissingTitles pages
  let missingD := mtMissingDescs pages
  let shortT := mtShortTitles titleMin pages
  let longT := mtLongTitles titleMin titleMax pages
  let shortD := mtShortDescs descMin pages
  let longD := mtLongDescs descMin descMax pages
  let titles := mtTitles pages
  let descs := mtDescs pages
  let dupT := duplicateGroups (titles.map (·.2))
  let dupD := duplicateGroups (descs.map (·.2))
  let issues :=
    (if missingT.isEmpty then [] else
      [createIssue ("missing_title") .error ("missing_title_msg")
        (some ("missing_title_details")) (missingT.take 20)
        (some ("missing_title_rec")) missingT.length])
    ++ (if missingD.isEmpty then [] else
      [createIssue ("missing_description") .error ("missing_description_msg")
        (some ("missing_description_details")) (missingD.take 20)
        (some ("missing_description_rec")) missingD.length])
    ++ (if shortT.isEmpty then [] else
      [createIssue ("short_title") .warning ("short_title_msg")
        (some ("short_title_details")) ((shortT.map (·.1)).take 20)
        (some ("short_title_rec")) shortT.length])
    ++ (if longT.isEmpty then [] else
      [createIssue ("long_title") .warning ("long_title_msg")
        (some ("long_title_details")) ((longT.map (·.1)).take 20)
        (some ("long_title_rec")) longT.length])
    ++ (if shortD.isEmpty then [] else
      [createIssue ("short_description") .warning ("short_description_msg")
        (some ("short_description_details")) ((shortD.map (·.1)).take 20)
        (some ("short_description_rec")) shortD.length])
    ++ (if longD.isEmpty then [] else
      [createIssue ("long_description") .warning ("long_description_msg")
        (some ("long_description_details")) ((longD.map (·.1)).take 20)
        (some ("long_description_rec")) longD.length])
    ++ (if dupT.isEmpty then [] else
      [createIssue ("duplicate_title") .error ("duplicate_title_msg")
        (some ("duplicate_title_details")) ((dupUrls titles dupT).take 20)
        (some ("duplicate_title_rec")) ((dupT.map (·.2)).foldl Nat.add 0)])
    ++ (if dupD.isEmpty then [] else
      [createIssue ("duplicate_description") .warning ("duplicate_description_msg")
        (some ("duplicate_description_details")) ((dupUrls descs dupD).take 20)
        (some ("duplicate_description_rec")) ((dupD.map (·.2)).foldl Nat.add 0)])
  let totalPages := (pages.filter (fun p => p.2.statusCode = some 200)).length
  ({ name := "meta_tags"
     severity := determineOverallSeverity issues
     summary := "meta_tags_summary"
     issues := issues },
   { totalPages := totalPages
     missingTitles := missingT.length
     missingDescriptions := missingD.length
     duplicateTitles := dupT.length
     duplicateDescriptions := dupD.length
     okTitles := totalPages - missingT.length - shortT.length - longT.length
     okDescriptions := totalPages - missingD.length - shortD.length - longD.length })

lemma filter_opt (p : AuditIssue → Bool) (c : Prop) [Decidable c]
    (x : AuditIssue) (hx : p x = false) :
    (if c then [] else [x]).filter p = [] := by
  split_ifs <;> simp [hx]

/-- Three 200-status pages with titles X, X, Y (descriptions all non-empty),
the scenario of the duplicate-title claim. -/
def pagesC10 (a b c : String) : PageMap :=
  [(a, mkPage (some 200) ("X") ("d") 0 [] []),
   (b, mkPage (some 200) ("X") ("d") 0 [] []),
   (c, mkPage (some 200) ("Y") ("d") 0 [] [])]

/-- C10: for pages {A: "X", B: "X", C: "Y"} (all status 200), exactly one
duplicate-title group ("X" with occurrence count 2) is detected, the single
duplicate-title issue is an ERROR carrying the authoritative count 2 with
affected URLs [A, B], and C is not among them — for every configured
title/description length threshold. -/
theorem C10_duplicate_titles (a b c : String) (titleMin titleMax descMin descMax : Nat)
    (hab : a ≠ b) (hac : a ≠ c) (hbc : b ≠ c) :
    duplicateGroups ((mtTitles (pagesC10 a b c)).map (·.2)) = [("X", 2)]
    ∧ ((metaTagsAnalyze titleMin titleMax descMin descMax
          (pagesC10 a b c)).1.issues.filter
        (fun i => i.category == "duplicate_title"))
      = [createIssue ("duplicate_title") .error ("duplicate_title_msg")
          (some ("duplicate_title_details")) [a, b]
          (some ("duplicate_title_rec")) 2]
    ∧ c ∉ [a, b] := by
  have h1 : mtTitles (pagesC10 a b c) = [(a, ("X")), (b, ("X")), (c, ("Y"))] := by
    simp [mtTitles, pagesC10, mkPage]
  have hdescs : mtDescs (pagesC10 a b c) = [(a, ("d")), (b, ("d")), (c, ("d"))] := by
    simp [mtDescs, pagesC10, mkPage]
  have hdupT : duplicateGroups ((mtTitles (pagesC10 a b c)).map (·.2))
      = [(("X"), 2)] := by
    rw [h1]
    show duplicateGroups [("X"), ("X"), ("Y")] = _
    decide
  have hdupD : duplicateGroups ((mtDescs (pagesC10 a b c)).map (·.2))
      = [(("d"), 3)] := by
    rw [hdescs]
    show duplicateGroups [("d"), ("d"), ("d")] = _
    decide
  refine ⟨hdupT, ?_, ?_⟩
  · simp only [metaTagsAnalyze]
    rw [hdupT, hdupD, h1]
    simp [filter_opt, createIssue, List.filter_append, dupUrls]
  · intro h
    simp only [List.mem_cons, List.not_mem_nil, or_false] at h
    rcases h with h | h
    · exact hac h.symm
    · exact hbc h.symm

/-- Concrete instantiation of `C10_duplicate_titles`. -/
theorem C10_duplicate_titles_witness :
    duplicateGroups ((mtTitles (pagesC10 ("pa") ("pb") ("pc"))).map (·.2))
      = [("X", 2)]
    ∧ ((metaTagsAnalyze 50 60 150 160 (pagesC10 ("pa") ("pb") ("pc"))).1.issues.filter
        (fun i => i.category == "duplicate_title"))
      = [createIssue ("duplicate_title") .error ("duplicate_title_msg")
          (some ("duplicate_title_details")) ["pa", "pb"]
          (some ("duplicate_title_rec")) 2]
    ∧ ("pc") ∉ [("pa"), ("pb")] :=
  C10_duplicate_titles ("pa") ("pb") ("pc") 50 60 150 160
    (by decide) (by decide) (by decide)

/-- Findings of the 404 probe in `Page404Analyzer.analyze`
(`app/analyzers/page_404.py`, lines 59-111): the HTTP fetch and HTML
inspection of the synthetic nonexistent URL are external, so their boolean
outcomes are taken as input. -/
structure Probe404 where
  returns404 : Bool
  hasCustom404 : Bool
  hasNavigation : Bool
  hasSearch : Bool
  hasHomeLink : Bool
deriving DecidableEq, Repr

/-- Issue construction of `Page404Analyzer.analyze` (lines 127-171), with
display strings abbreviated to stable labels. -/
def page404Issues (p : Probe404) : List AuditIssue :=
  (if !p.returns404 then
    [createIssue ("wrong_404_status") .error ("wrong_404_status_msg")
      (some ("wrong_404_status_details")) [] (some ("wrong_404_status_rec"))]
    else [])
  ++ (if !p.hasCustom404 then
    [createIssue ("no_custom_404") .error ("no_custom_404_msg")
      (some ("no_custom_404_details")) [] (some ("no_custom_404_rec"))]
    else [])
  ++ (if p.hasCustom404 && !p.hasNavigation then
    [createIssue ("404_no_navigation") .warning ("404_no_navigation_msg")
      (some ("404_no_navigation_details")) [] (some ("404_no_navigation_rec"))]
    else [])
  ++ (if p.hasCustom404 && !p.hasHomeLink then
    [createIssue ("404_no_home_link") .warning ("404_no_home_link_msg")
      (some ("404_no_home_link_details")) [] (some ("404_no_home_link_rec"))]
    else [])
  ++ (if p.hasCustom404 && !p.hasSearch then
    [createIssue ("404_no_search") .info ("404_no_search_msg")
      (some ("404_no_search_details")) [] (some ("404_no_search_rec"))]
    else [])

/-- The flag-based severity policy of `Page404Analyzer.analyze`
(lines 173-182) — this analyzer does NOT call
`_determine_overall_severity`. -/
def page404Severity (p : Probe404) : SeverityLevel :=
  if p.returns404 && p.hasCustom404 && p.hasNavigation then .success
  else if !p.returns404 || !p.hasCustom404 then .error
  else .warning

/-- `Page404Analyzer.analyze`: `none` is the exception path of the probe
(lines 113-125), `some p` the normal path. -/
def page404Analyze (probe : Option Probe404) : AnalyzerResult :=
  match probe with
  | none =>
      { name := "page_404"
        severity := .warning
        summary := "404_check_failed_summary"
        issues := [createIssue ("404_check_failed") .warning ("404_check_failed_msg")
          (some ("404_check_failed_details")) [] (some ("404_check_failed_rec"))] }
  | some p =>
      { name := "page_404"
        severity := page404Severity p
        summary := "404_summary"
        issues := page404Issues p }

/-- The score-based severity policy of `SpeedAnalyzer.analyze`
(`app/analyzers/speed.py`, lines 203-218) — this analyzer does NOT call
`_determine_overall_severity` either; `mobileScore`/`desktopScore` default
to 0 when a device profile is missing. -/
def speedSeverity (mobileScore desktopScore : Int) (issues : List AuditIssue) :
    SeverityLevel :=
  if 70 ≤ mobileScore ∧ 70 ≤ desktopScore then
    (if issues.any (·.severity == .error) then .warning else .success)
  else if 50 ≤ mobileScore ∨ 50 ≤ desktopScore then .warning
  else .error

/-- Probe outcome: correct 404 status, custom page, navigation present,
no search form, no home link. -/
def probeC2 : Probe404 :=
  { returns404 := true
    hasCustom404 := true
    hasNavigation := true
    hasSearch := false
    hasHomeLink := false }

/-- C2 fails as stated: the 404-page analyzer, on a probe that found a
correct 404 status, a custom 404 page and navigation but no home link and
no search form, reports a WARNING issue and an INFO issue yet sets its
overall severity to SUCCESS, which differs from the aggregation rule's
WARNING; the speed analyzer likewise returns SUCCESS for scores 80/80
despite a WARNING-severity issue. -/
theorem C2_counterexample :
    (page404Analyze (some probeC2)).severity = .success
    ∧ determineOverallSeverity (page404Analyze (some probeC2)).issues = .warning
    ∧ (page404Analyze (some probeC2)).severity
      ≠ determineOverallSeverity (page404Analyze (some probeC2)).issues
    ∧ speedSeverity 80 80 [createIssue ("mobile_cls_high") .warning ("m")]
      = .success := by
  decide

/-- C2 (amended): the graph-based analyzers (structure, redirects,
meta-tags) derive their result's severity from their issue list by the
single aggregation rule, for every input page map and configuration; the
404-page and speed analyzers instead set severity by analyzer-specific
flag/score policies, which can disagree with the aggregation of their
issues. -/
theorem C2_severity_derivation (maxClickDepth titleMin titleMax descMin descMax : Nat)
    (baseUrl : String) (pages : PageMap) (p : Probe404)
    (mobileScore desktopScore : Int) (issues : List AuditIssue) :
    (structureAnalyze maxClickDepth baseUrl pages).1.severity
      = determineOverallSeverity (structureAnalyze maxClickDepth baseUrl pages).1.issues
    ∧ (redirectsAnalyze pages).1.severity
      = determineOverallSeverity (redirectsAnalyze pages).1.issues
    ∧ (metaTagsAnalyze titleMin titleMax descMin descMax pages).1.severity
      = determineOverallSeverity
          (metaTagsAnalyze titleMin titleMax descMin descMax pages).1.issues
    ∧ (page404Analyze (some p)).severity = page404Severity p
    ∧ speedSeverity mobileScore desktopScore issues
      = (if 70 ≤ mobileScore ∧ 70 ≤ desktopScore then
          (if issues.any (·.severity == .error) then .warning else .success)
        else if 50 ≤ mobileScore ∨ 50 ≤ desktopScore then .warning
        else .error) :=
  ⟨rfl, rfl, rfl, rfl, rfl⟩

/-- Audit state machine.  Modelled from the spec (§4.4; `AuditStatus` lives
in `app/models.py`, outside the sources): PENDING → CRAWLING → ANALYZING →
GENERATING_REPORT → COMPLETED, with FAILED reachable from non-terminal
states. -/
inductive AuditStatus where
  | pending
  | crawling
  | analyzing
  | generatingReport
  | completed
  | failed
deriving DecidableEq, Repr

/-- Python dict assignment `results[name] = result`: overwrite in place if
the key exists, else append (insertion order preserved). -/
def dictSet (m : List (String × AnalyzerResult)) (k : String) (v : AnalyzerResult) :
    List (String × AnalyzerResult) :=
  if m.any (fun q => q.1 = k) then m.map (fun q => if q.1 = k then (k, v) else q)
  else m ++ [(k, v)]

/-- The analyzer loop of `run_audit` (`app/main.py`, lines 284-299): each
analyzer's `analyze` call either returns a result (`Except.ok`) or raises
(`Except.error`); an exception is caught and logged and the loop moves on,
so only `ok` outcomes reach the `results` dict. -/
def runAnalyzers (outcomes : List (String × Except String AnalyzerResult)) :
    List (String × AnalyzerResult) :=
  outcomes.foldl
    (fun acc o =>
      match o.2 with
      | .ok r => dictSet acc o.1 r
      | .error _ => acc) []

/-- One step of the totals loop (`app/main.py`, lines 304-310): bucket
`issue.count` into critical (ERROR) / warnings (WARNING) and always into
the total. -/
def rollupStep (acc : Nat × Nat × Nat) (issue : AuditIssue) : Nat × Nat × Nat :=
  ((if issue.severity == .error then acc.1 + issue.count else acc.1),
   (if issue.severity == .warning then acc.2.1 + issue.count else acc.2.1),
   acc.2.2 + issue.count)

/-- The totals loop over `results.values()` (lines 304-310), starting from
the audit's zero-initialized counters. -/
def rollupCounters (results : List (String × AnalyzerResult)) : Nat × Nat × Nat :=
  results.foldl (fun acc r => r.2.issues.foldl rollupStep acc) (0, 0, 0)

/-- Audit fields mutated by the ANALYZING phase of `run_audit`. -/
structure AuditState where
  status : AuditStatus
  results : List (String × AnalyzerResult)
  criticalIssues : Nat
  warnings : Nat
  totalIssues : Nat
  passedChecks : Nat
deriving DecidableEq, Repr

/-- The ANALYZING phase of `run_audit` (`app/main.py`, lines 258-324):
runs every analyzer with per-analyzer exception isolation, computes the
rollup counters and `passed_checks` (line 312-314), then moves the audit to
GENERATING_REPORT (line 317) — analyzer faults never reach the outer
`except` that would set FAILED. -/
def analyzingPhase (outcomes : List (String × Except String AnalyzerResult)) :
    AuditState :=
  let results := runAnalyzers outcomes
  let counters := rollupCounters results
  { status := .generatingReport
    results := results
    criticalIssues := counters.1
    warnings := counters.2.1
    totalIssues := counters.2.2
    passedChecks := outcomes.length
      - (results.filter
          (fun r => r.2.severity == .error || r.2.severity == .warning)).length }

lemma lookup_map_overwrite (acc : List (String × AnalyzerResult)) (m : String)
    (v : AnalyzerResult) (n : String) (hne : n ≠ m) :
    (acc.map (fun q => if q.1 = m then (m, v) else q)).lookup n = acc.lookup n := by
  have hb : (n == m) = false := beq_eq_false_iff_ne.mpr hne
  induction acc with
  | nil => rfl
  | cons q t ih =>
      by_cases h : q.1 = m
      · rw [List.map_cons, if_pos h]
        simp only [List.lookup, hb]
        rw [show (n == q.1) = false by rw [h]; exact hb]
        exact ih
      · rw [List.map_cons, if_neg h]
        simp only [List.lookup]
        cases hq : (n == q.1)
        · simp only [hq]
          exact ih
        · simp only [hq]

lemma lookup_append_single (acc : List (String × AnalyzerResult)) (m : String)
    (v : AnalyzerResult) (n : String) (hne : n ≠ m) :
    (acc ++ [(m, v)]).lookup n = acc.lookup n := by
  have hb : (n == m) = false := beq_eq_false_iff_ne.mpr hne
  induction acc with
  | nil =>
      simp only [List.nil_append, List.lookup, hb]
  | cons q t ih =>
      rw [List.cons_append]
      simp only [List.lookup]
      cases hq : (n == q.1)
      · simp only [hq]
        exact ih
      · simp only [hq]

lemma lookup_dictSet_ne (acc : List (String × AnalyzerResult)) (m : String)
    (v : AnalyzerResult) (n : String) (hne : n ≠ m) :
    (dictSet acc m v).lookup n = acc.lookup n := by
  rw [dictSet]
  by_cases h : acc.any (fun q => q.1 = m)
  · rw [if_pos h]
    exact lookup_map_overwrite acc m v n hne
  · rw [if_neg h]
    exact lookup_append_single acc m v n hne

lemma runAnalyzers_lookup_none (outcomes : List (String × Except String AnalyzerResult))
    (acc : List (String × AnalyzerResult)) (n : String)
    (hn : n ∉ outcomes.map Prod.fst) (hacc : acc.lookup n = none) :
    (outcomes.foldl
      (fun acc o =>
        match o.2 with
        | .ok r => dictSet acc o.1 r
        | .error _ => acc) acc).lookup n = none := by
  induction outcomes generalizing acc with
  | nil => exact hacc
  | cons o t ih =>
      rw [List.foldl_cons]
      have hn1 : n ≠ o.1 := by
        intro he
        exact hn (by simp [he])
      have hnt : n ∉ t.map Prod.fst := by
        intro hmem
        exact hn (by simp [hmem])
      cases ho : o.2 with
      | ok r =>
          exact ih _ hnt (by rw [lookup_dictSet_ne _ _ _ _ hn1]; exact hacc)
      | error e =>
          exact ih _ hnt hacc

/-- C3: if one analyzer raises during the ANALYZING phase, the phase still
completes (the audit moves to GENERATING_REPORT, never to FAILED because of
that analyzer), the failing analyzer contributes no entry to the results
mapping, and the results are exactly those of running the remaining
analyzers in order. -/
theorem C3_analyzer_fault_isolation
    (pre post : List (String × Except String AnalyzerResult)) (n msg : String)
    (hn : n ∉ (pre ++ post).map Prod.fst) :
    (analyzingPhase (pre ++ (n, Except.error msg) :: post)).status = .generatingReport
    ∧ (analyzingPhase (pre ++ (n, Except.error msg) :: post)).status ≠ .failed
    ∧ runAnalyzers (pre ++ (n, Except.error msg) :: post) = runAnalyzers (pre ++ post)
    ∧ (runAnalyzers (pre ++ (n, Except.error msg) :: post)).lookup n = none := by
  have hskip : runAnalyzers (pre ++ (n, Except.error msg) :: post)
      = runAnalyzers (pre ++ post) := by
    simp only [runAnalyzers, List.foldl_append, List.foldl_cons]
  refine ⟨rfl, ?_, hskip, ?_⟩
  · intro hcontra
    exact AuditStatus.noConfusion hcontra
  · rw [hskip]
    exact runAnalyzers_lookup_none (pre ++ post) [] n hn rfl

/-- Concrete instantiation of `C3_analyzer_fault_isolation`. -/
theorem C3_analyzer_fault_isolation_witness :
    (analyzingPhase [("cms", Except.ok (page404Analyze (some probeC2))),
        ("speed", Except.error ("boom")),
        ("structure", Except.ok (redirectsAnalyze []).1)]).status = .generatingReport
    ∧ (runAnalyzers [("cms", Except.ok (page404Analyze (some probeC2))),
        ("speed", Except.error ("boom")),
        ("structure", Except.ok (redirectsAnalyze []).1)]).lookup ("speed") = none := by
  have h := C3_analyzer_fault_isolation
    [("cms", Except.ok (page404Analyze (some probeC2)))]
    [("structure", Except.ok (redirectsAnalyze []).1)]
    ("speed") ("boom") (by decide)
  exact ⟨h.1, h.2.2.2⟩

/-- Names of the analyzers whose `analyze` call returned normally. -/
def okNames (outcomes : List (String × Except String AnalyzerResult)) : List String :=
  outcomes.filterMap
    (fun o =>
      match o.2 with
      | .ok _ => some o.1
      | .error _ => none)

/-- The `results` dict as a plain projection: one entry per successful
analyzer, in order (coincides with `runAnalyzers` when names are distinct,
see `runAnalyzers_eq`). -/
def resultsOf (outcomes : List (String × Except String AnalyzerResult)) :
    List (String × AnalyzerResult) :=
  outcomes.filterMap
    (fun o =>
      match o.2 with
      | .ok r => some (o.1, r)
      | .error _ => none)

/-- An analyzer counts toward `passed_checks` iff it contributed no result
at all or its result's severity is neither ERROR nor WARNING
(`app/main.py`, lines 312-314). -/
def analyzerPassed (o : String × Except String AnalyzerResult) : Bool :=
  match o.2 with
  | .error _ => true
  | .ok r => !(r.severity == .error || r.severity == .warning)

/-- Sum of `issue.count` over all issues of severity `s` across results. -/
def severityCountSum (s : SeverityLevel)
    (results : List (String × AnalyzerResult)) : Nat :=
  (results.map
    (fun r => ((r.2.issues.filter (fun i => i.severity == s)).map (·.count)).sum)).sum

/-- Sum of `issue.count` over all issues across results. -/
def totalCountSum (results : List (String × AnalyzerResult)) : Nat :=
  (results.map (fun r => (r.2.issues.map (·.count)).sum)).sum

lemma foldl_rollupStep (issues : List AuditIssue) (c w t : Nat) :
    issues.foldl rollupStep (c, w, t)
      = (c + ((issues.filter (fun i => i.severity == .error)).map (·.count)).sum,
         w + ((issues.filter (fun i => i.severity == .warning)).map (·.count)).sum,
         t + (issues.map (·.count)).sum) := by
  induction issues generalizing c w t with
  | nil => simp
  | cons i is ih =>
      simp only [List.foldl_cons, rollupStep, List.filter_cons, List.map_cons,
        List.sum_cons]
      cases he : (i.severity == .error) <;> cases hw : (i.severity == .warning) <;>
        simp [he, hw, ih, Prod.ext_iff] <;> omega

lemma rollupCounters_eq (results : List (String × AnalyzerResult)) :
    rollupCounters results
      = (severityCountSum .error results, severityCountSum .warning results,
         totalCountSum results) := by
  suffices h : ∀ (rs : List (String × AnalyzerResult)) (c w t : Nat),
      rs.foldl (fun acc r => r.2.issues.foldl rollupStep acc) (c, w, t)
        = (c + severityCountSum .error rs, w + severityCountSum .warning rs,
           t + totalCountSum rs) by
    have h0 := h results 0 0 0
    simpa [rollupCounters] using h0
  intro rs
  induction rs with
  | nil => simp [severityCountSum, totalCountSum]
  | cons r rs ih =>
      intro c w t
      rw [List.foldl_cons, foldl_rollupStep, ih]
      simp only [severityCountSum, totalCountSum, List.map_cons, List.sum_cons,
        Prod.mk.injEq]
      refine ⟨by omega, by omega, by omega⟩

lemma runAnalyzers_gen (outcomes : List (String × Except String AnalyzerResult)) :
    ∀ acc : List (String × AnalyzerResult),
      (∀ q ∈ acc, q.1 ∉ okNames outcomes) → (okNames outcomes).Nodup →
      outcomes.foldl
        (fun acc o =>
          match o.2 with
          | .ok r => dictSet acc o.1 r
          | .error _ => acc) acc
        = acc ++ resultsOf outcomes := by
  induction outcomes with
  | nil =>
      intro acc _ _
      simp [resultsOf]
  | cons o t ih =>
      intro acc hacc hnd
      rw [List.foldl_cons]
      cases ho : o.2 with
      | error e =>
          have hok : okNames (o :: t) = okNames t := by
            simp [okNames, ho]
          have hres : resultsOf (o :: t) = resultsOf t := by
            simp [resultsOf, ho]
          rw [hok] at hacc hnd
          rw [hres]
          exact ih acc hacc hnd
      | ok r =>
          have hok : okNames (o :: t) = o.1 :: okNames t := by
            simp [okNames, ho]
          have hres : resultsOf (o :: t) = (o.1, r) :: resultsOf t := by
            simp [resultsOf, ho]
          rw [hok] at hacc hnd
          rw [hres]
          have hany : acc.any (fun q => q.1 = o.1) = false := by
            rw [List.any_eq_false]
            intro q hq
            have := hacc q hq
            simp only [List.mem_cons, not_or] at this
            simpa using this.1
          have hdict : dictSet acc o.1 r = acc ++ [(o.1, r)] := by
            simp [dictSet, hany]
          have hnd' := hnd.of_cons
          have hmem := (List.nodup_cons.mp hnd).1
          have hacc' : ∀ q ∈ acc ++ [(o.1, r)], q.1 ∉ okNames t := by
            intro q hq
            rcases List.mem_append.mp hq with hq | hq
            · have := hacc q hq
              simp only [List.mem_cons, not_or] at this
              exact this.2
            · rw [List.mem_singleton] at hq
              subst hq
              exact hmem
          calc (List.foldl
                (fun acc o =>
                  match o.2 with
                  | Except.ok r => dictSet acc o.1 r
                  | Except.error _ => acc)
                (dictSet acc o.1 r) t)
              = List.foldl
                  (fun acc o =>
                    match o.2 with
                    | Except.ok r => dictSet acc o.1 r
                    | Except.error _ => acc)
                  (acc ++ [(o.1, r)]) t := by rw [hdict]
            _ = (acc ++ [(o.1, r)]) ++ resultsOf t := ih (acc ++ [(o.1, r)]) hacc' hnd'
            _ = acc ++ (o.1, r) :: resultsOf t := by
                rw [List.append_assoc, List.singleton_append]

lemma runAnalyzers_eq (outcomes : List (String × Except String AnalyzerResult))
    (hnd : (okNames outcomes).Nodup) :
    runAnalyzers outcomes = resultsOf outcomes := by
  have h := runAnalyzers_gen outcomes [] (by simp) hnd
  simpa [runAnalyzers] using h

lemma resultsOf_badCount (outcomes : List (String × Except String AnalyzerResult)) :
    ((resultsOf outcomes).filter
        (fun r => r.2.severity == .error || r.2.severity == .warning)).length
      = (outcomes.filter (fun o => !(analyzerPassed o))).length := by
  induction outcomes with
  | nil => rfl
  | cons o t ih =>
      cases ho : o.2 with
      | error e =>
          have hres : resultsOf (o :: t) = resultsOf t := by
            simp [resultsOf, ho]
          have hp : analyzerPassed o = true := by
            simp [analyzerPassed, ho]
          rw [hres, List.filter_cons, ih]
          simp [hp]
      | ok r =>
          have hres : resultsOf (o :: t) = (o.1, r) :: resultsOf t := by
            simp [resultsOf, ho]
          have hp : analyzerPassed o
              = !(r.severity == .error || r.severity == .warning) := by
            simp [analyzerPassed, ho]
          rw [hres, List.filter_cons, List.filter_cons, hp]
          cases hbad : (r.severity == .error || r.severity == .warning) <;>
            simp [hbad, ih]

lemma filter_not_length {α : Type} (l : List α) (p : α → Bool) :
    (l.filter p).length + (l.filter (fun a => !(p a))).length = l.length := by
  induction l with
  | nil => rfl
  | cons a t ih =>
      rw [List.filter_cons, List.filter_cons]
      cases hp : p a <;> simp [hp] <;> omega

/-- C4: after the ANALYZING phase, `critical_issues` is the sum of
`issue.count` over all ERROR issues across all analyzer results, `warnings`
the same sum over WARNING issues, `total_issues` over all issues, and
`passed_checks` is the number of analyzers that either produced no result
or whose overall severity is neither ERROR nor WARNING (analyzer names are
pairwise distinct, as they are in the fixed analyzer list). -/
theorem C4_rollup_counters (outcomes : List (String × Except String AnalyzerResult))
    (hnd : (okNames outcomes).Nodup) :
    (analyzingPhase outcomes).criticalIssues
      = severityCountSum .error (runAnalyzers outcomes)
    ∧ (analyzingPhase outcomes).warnings
      = severityCountSum .warning (runAnalyzers outcomes)
    ∧ (analyzingPhase outcomes).totalIssues = totalCountSum (runAnalyzers outcomes)
    ∧ (analyzingPhase outcomes).passedChecks
      = (outcomes.filter analyzerPassed).length := by
  refine ⟨?_, ?_, ?_, ?_⟩
  · show (rollupCounters (runAnalyzers outcomes)).1 = _
    rw [rollupCounters_eq]
  · show (rollupCounters (runAnalyzers outcomes)).2.1 = _
    rw [rollupCounters_eq]
  · show (rollupCounters (runAnalyzers outcomes)).2.2 = _
    rw [rollupCounters_eq]
  · show outcomes.length
        - ((runAnalyzers outcomes).filter
            (fun r => r.2.severity == .error || r.2.severity == .warning)).length
      = _
    rw [runAnalyzers_eq outcomes hnd, resultsOf_badCount]
    have h := filter_not_length outcomes analyzerPassed
    omega

/-- Concrete instantiation of `C4_rollup_counters`. -/
theorem C4_rollup_counters_witness :
    (analyzingPhase [("page_404", Except.ok (page404Analyze (some probeC2))),
        ("speed", Except.error ("boom")),
        ("redirects", Except.ok (redirectsAnalyze []).1)]).criticalIssues
      = severityCountSum .error
          (runAnalyzers [("page_404", Except.ok (page404Analyze (some probeC2))),
            ("speed", Except.error ("boom")),
            ("redirects", Except.ok (redirectsAnalyze []).1)])
    ∧ (analyzingPhase [("page_404", Except.ok (page404Analyze (some probeC2))),
        ("speed", Except.error ("boom")),
        ("redirects", Except.ok (redirectsAnalyze []).1)]).passedChecks = 3 := by
  have h := C4_rollup_counters
    [("page_404", Except.ok (page404Analyze (some probeC2))),
     ("speed", Except.error ("boom")),
     ("redirects", Except.ok (redirectsAnalyze []).1)]
    (by decide)
  refine ⟨h.1, ?_⟩
  rw [h.2.2.2]
  decide

/-- Progress value of the i-th per-analyzer event during ANALYZING
(`app/main.py`, line 288): `40 + ((i + 1) / len(analyzers) * 40)`; exact
rational arithmetic stands in for Python float (whose value at the
boundary `i + 1 = n` is likewise exactly 80.0). -/
def analyzingProgress (n i : Nat) : ℚ := 40 + ((i : ℚ) + 1) / (n : ℚ) * 40

/-- The sequence of per-analyzer progress values, one per analyzer. -/
def analyzingProgressList (n : Nat) : List ℚ :=
  (List.range n).map (analyzingProgress n)

/-- C8 fails as stated: with the fixed list of 13 analyzers, the last
per-analyzer progress event carries the value 40 + (13/13)·40 = 80, which
is not in the half-open interval [40, 80). -/
theorem C8_counterexample :
    ¬ (∀ p ∈ analyzingProgressList 13, 40 ≤ p ∧ p < 80) := by
  intro h
  have hmem : analyzingProgress 13 12 ∈ analyzingProgressList 13 := by
    rw [analyzingProgressList, List.mem_map]
    exact ⟨12, by norm_num, rfl⟩
  have hlt := (h _ hmem).2
  have hval : analyzingProgress 13 12 = 80 := by
    norm_num [analyzingProgress]
  rw [hval] at hlt
  exact lt_irrefl _ hlt

/-- C8 (amended): for every number of analyzers n ≥ 1, each per-analyzer
progress value lies in the half-open interval (40, 80] — the last event is
exactly 80 — and the sequence is monotonically (strictly) increasing. -/
theorem C8_analyzing_progress (n : Nat) (hn : 1 ≤ n) :
    (∀ p ∈ analyzingProgressList n, 40 < p ∧ p ≤ 80)
    ∧ (∀ i j : Nat, i ≤ j → j < n →
        analyzingProgress n i ≤ analyzingProgress n j) := by
  have hnpos : (0 : ℚ) < (n : ℚ) := by
    exact_mod_cast hn
  constructor
  · intro p hp
    rw [analyzingProgressList, List.mem_map] at hp
    obtain ⟨i, hi, rfl⟩ := hp
    rw [List.mem_range] at hi
    constructor
    · rw [analyzingProgress]
      have hpos : 0 < ((i : ℚ) + 1) / (n : ℚ) * 40 := by positivity
      linarith
    · rw [analyzingProgress]
      have hle : ((i : ℚ) + 1) / (n : ℚ) ≤ 1 := by
        rw [div_le_one hnpos]
        exact_mod_cast hi
      nlinarith
  · intro i j hij hjn
    rw [analyzingProgress, analyzingProgress]
    have hle : ((i : ℚ) + 1) / (n : ℚ) ≤ ((j : ℚ) + 1) / (n : ℚ) := by
      gcongr
    nlinarith

/-- Concrete instantiation of `C8_analyzing_progress`. -/
theorem C8_analyzing_progress_witness :
    (40 < analyzingProgress 2 0 ∧ analyzingProgress 2 0 ≤ 80)
    ∧ analyzingProgress 2 0 ≤ analyzingProgress 2 1 := by
  have h := C8_analyzing_progress 2 (by norm_num)
  refine ⟨h.1 (analyzingProgress 2 0) ?_, h.2 0 1 (by norm_num) (by norm_num)⟩
  rw [analyzingProgressList, List.mem_map]
  exact ⟨0, by norm_num, rfl⟩

/-- One simulated outcome of `session.get` in
`SpeedAnalyzer._get_pagespeed_insights` (`app/analyzers/speed.py`,
lines 290-394): a non-200 HTTP response with its error body, a parsed
success (the metric payload type is abstract), a transport error, a
timeout, or an unexpected exception. -/
inductive ApiResponse (M : Type) where
  | http (status : Nat) (errorText : String)
  | success (m : M)
  | netError (name : String)
  | timedOut
  | exn (name : String)

/-- Python `needle in haystack` on strings. -/
def strContains (hay needle : String) : Bool :=
  decide (needle.toList <:+: hay.toList)

/-- `is_quota_error` (line 302): status 429, or "Quota" or "RATE_LIMIT" in
the response body. -/
def isQuotaError (status : Nat) (text : String) : Bool :=
  status == 429 || strContains text ("Quota") || strContains text ("RATE_LIMIT")

/-- Whether a simulated response is a quota/rate-limit fault. -/
def ApiResponse.isQuotaErr {M : Type} : ApiResponse M → Bool
  | .http s t => isQuotaError s t
  | _ => false

/-- The retry loop of `fetch_strategy` (lines 289-396).  `fuel` is the
number of loop iterations left (`max_retries - attempt`), `useKey` whether
the key parameter is currently attached, `errors` the accumulated error
strings, `trace` records for each request issued whether the credential was
attached.  On a quota fault with retries left the key is dropped first
(lines 304-311), then exponential backoff retries (313-317); a non-quota
HTTP fault appends a parsed error and returns None (lines 319-327);
transport faults and timeouts retry with fixed backoff (374-389);
unexpected exceptions return immediately (390-394); an exhausted loop
returns None (line 396). -/
def fetchGo {M : Type} (strategy : String) (parseError : Nat → String → String)
    (responses : Nat → ApiResponse M) (maxRetries : Nat) :
    Nat → Nat → Bool → List String → List Bool →
    Option M × List String × List Bool
  | 0, _, _, errors, trace => (none, errors, trace)
  | fuel + 1, attempt, useKey, errors, trace =>
    match responses attempt with
    | .success m => (some m, errors, trace ++ [useKey])
    | .http status text =>
        if isQuotaError status text ∧ attempt < maxRetries - 1 then
          if useKey then
            fetchGo strategy parseError responses maxRetries fuel (attempt + 1)
              false errors (trace ++ [useKey])
          else
            fetchGo strategy parseError responses maxRetries fuel (attempt + 1)
              useKey errors (trace ++ [useKey])
        else
          (none, errors ++ [strategy ++ (": ") ++ parseError status text],
           trace ++ [useKey])
    | .netError nm =>
        if attempt < maxRetries - 1 then
          fetchGo strategy parseError responses maxRetries fuel (attempt + 1)
            useKey errors (trace ++ [useKey])
        else
          (none, errors ++ [strategy ++ (": Network error - ") ++ nm],
           trace ++ [useKey])
    | .timedOut =>
        if attempt < maxRetries - 1 then
          fetchGo strategy parseError responses maxRetries fuel (attempt + 1)
            useKey errors (trace ++ [useKey])
        else
          (none, errors ++ [strategy ++ (": Timeout (60s exceeded)")],
           trace ++ [useKey])
    | .exn nm =>
        (none, errors ++ [strategy ++ (": ") ++ nm], trace ++ [useKey])

/-- `fetch_strategy(strategy)` with `max_retries = 3` (line 289); the key is
attached initially iff the configured API key is truthy (non-empty,
lines 285-287); `errors0` is the enclosing function's shared error list. -/
def fetchStrategy {M : Type} (strategy : String) (parseError : Nat → String → String)
    (apiKey : String) (responses : Nat → ApiResponse M) (errors0 : List String) :
    Option M × List String × List Bool :=
  fetchGo strategy parseError responses 3 3 0 (!(apiKey == "")) errors0 []

/-- `PageSpeedResult` restricted to the fields the fetcher writes
(`app/models.py` is not part of the sources; `app/analyzers/speed.py`,
lines 398-409). -/
structure PageSpeedResult (M : Type) where
  mobile : Option M
  desktop : Option M
  error : Option String

/-- `_get_pagespeed_insights` (lines 269-409): mobile then desktop are
fetched sequentially against one shared error list; if any errors
accumulated they are joined with "; " onto `result.error`, otherwise the
error field stays None — no exception propagates.  Also returns the two
request traces. -/
def getPagespeedInsights {M : Type} (parseError : Nat → String → String)
    (apiKey : String) (mobileResponses desktopResponses : Nat → ApiResponse M) :
    PageSpeedResult M × List Bool × List Bool :=
  let mres := fetchStrategy ("mobile") parseError apiKey mobileResponses []
  let dres := fetchStrategy ("desktop") parseError apiKey desktopResponses mres.2.1
  ({ mobile := mres.1
     desktop := dres.1
     error := if dres.2.1.isEmpty then none
       else some (String.intercalate ("; ") dres.2.1) },
   mres.2.2, dres.2.2)

lemma isQuotaErr_http {M : Type} (r : ApiResponse M) (h : r.isQuotaErr = true) :
    ∃ s t, r = .http s t ∧ isQuotaError s t = true := by
  cases r with
  | http s t => exact ⟨s, t, rfl, h⟩
  | success m => simp [ApiResponse.isQuotaErr] at h
  | netError nm => simp [ApiResponse.isQuotaErr] at h
  | timedOut => simp [ApiResponse.isQuotaErr] at h
  | exn nm => simp [ApiResponse.isQuotaErr] at h

/-- C7: with an API credential attached, a quota-fault response followed by
a success yields the success metrics after exactly one retry, and that
retry is made without the credential (request trace [with-key, without-key]
and no recorded error); when every attempt hits the quota fault, the
retries are exhausted (trace [with-key, without-key, without-key]), the
fetch returns None instead of raising, and the fetcher records the fault as
a structured error string on the result. -/
theorem C7_pagespeed_quota_retry {M : Type} (parseError : Nat → String → String)
    (apiKey : String) (m : M) (responses responses2 : Nat → ApiResponse M)
    (hkey : apiKey ≠ "")
    (hq : (responses 0).isQuotaErr = true)
    (hs : responses 1 = .success m)
    (hall : ∀ k, (responses2 k).isQuotaErr = true) :
    fetchStrategy ("mobile") parseError apiKey responses []
      = (some m, [], [true, false])
    ∧ (fetchStrategy ("mobile") parseError apiKey responses2 []).1 = none
    ∧ (fetchStrategy ("mobile") parseError apiKey responses2 []).2.2
      = [true, false, false]
    ∧ (getPagespeedInsights parseError apiKey responses2 responses2).1.mobile = none
    ∧ (getPagespeedInsights parseError apiKey responses2 responses2).1.desktop = none
    ∧ (getPagespeedInsights parseError apiKey responses2 responses2).1.error
      ≠ none := by
  have hkb : (apiKey == "") = false := beq_eq_false_iff_ne.mpr hkey
  obtain ⟨s0, t0, h0, hq0⟩ := isQuotaErr_http _ (hq)
  have hpart1 : fetchStrategy ("mobile") parseError apiKey responses []
      = (some m, [], [true, false]) := by
    simp only [fetchStrategy, hkb, Bool.not_false]
    simp [fetchGo, h0, hq0, hs]
  have hcore : ∀ (strategy : String) (errors0 : List String), ∃ s t,
      fetchStrategy strategy parseError apiKey responses2 errors0
        = (none, errors0 ++ [strategy ++ (": ") ++ parseError s t],
           [true, false, false]) := by
    intro strategy errors0
    obtain ⟨s2', t2', h2, hq2⟩ := isQuotaErr_http _ (hall 2)
    obtain ⟨s1', t1', h1, hq1⟩ := isQuotaErr_http _ (hall 1)
    obtain ⟨s0', t0', h0', hq0'⟩ := isQuotaErr_http _ (hall 0)
    refine ⟨s2', t2', ?_⟩
    simp only [fetchStrategy, hkb, Bool.not_false]
    simp [fetchGo, h0', hq0', h1, hq1, h2, hq2]
  obtain ⟨sm, tm, hm⟩ := hcore ("mobile") []
  obtain ⟨sd, td, hd⟩ := hcore ("desktop") [("mobile") ++ (": ") ++ parseError sm tm]
  have hg : getPagespeedInsights parseError apiKey responses2 responses2
      = ({ mobile := none, desktop := none,
           error := some (String.intercalate ("; ")
             [("mobile") ++ (": ") ++ parseError sm tm,
              ("desktop") ++ (": ") ++ parseError sd td]) },
         [true, false, false], [true, false, false]) := by
    simp only [getPagespeedInsights, hm, List.nil_append]
    rw [hd]
    simp
  refine ⟨hpart1, ?_, ?_, ?_, ?_, ?_⟩
  · rw [hm]
  · rw [hm]
  · rw [hg]
  · rw [hg]
  · rw [hg]
    simp

/-- Concrete error-message parser for the witness: the fallback form
that prefixes the status code with HTTP. -/
def parseErrW : Nat → String → String := fun status _ => ("HTTP ") ++ toString status

/-- Witness response stream: one quota fault, then success. -/
def respW : Nat → ApiResponse Nat := fun k =>
  if k = 0 then .http 429 ("quota") else .success 7

/-- Witness response stream: every attempt hits the quota fault. -/
def respW2 : Nat → ApiResponse Nat := fun _ => .http 429 ("quota")

/-- Concrete instantiation of `C7_pagespeed_quota_retry`. -/
theorem C7_pagespeed_quota_retry_witness :
    fetchStrategy ("mobile") parseErrW ("k") respW [] = (some 7, [], [true, false])
    ∧ (getPagespeedInsights parseErrW ("k") respW2 respW2).1.error ≠ none := by
  have h := C7_pagespeed_quota_retry parseErrW ("k") 7 respW respW2
    (by decide) (by decide) rfl (fun _ => rfl)
  exact ⟨h.1, h.2.2.2.2.2⟩
